import Mathlib

/-!
Verification of `compare_to_shortform.py`, a straight-line script that prints a
hard-coded comparison report.  The embedding models each `print(s)` call by the
string `s` it receives; the captured standard output is the concatenation of
`s ++ "\n"` over the calls, in program order.  All string data is transcribed
literally from the source.
-/

set_option maxRecDepth 4000

namespace CompareToShortform

/-- Splits a character list at every occurrence of the character `c`
(the list of maximal `c`-free segments; `n` occurrences give `n + 1` segments). -/
def splitOnChar (c : Char) : List Char → List (List Char)
  | [] => [[]]
  | a :: rest =>
    if a = c then [] :: splitOnChar c rest
    else
      match splitOnChar c rest with
      | [] => [[a]]
      | h :: t => (a :: h) :: t

/-- The lines of a newline-terminated output string: split the character data at
every newline and drop the final empty segment after the last newline. -/
def linesOf (s : String) : List String :=
  ((splitOnChar '\n' s.data).map (fun l => String.mk l)).dropLast

/-- The number of (non-self-overlapping) occurrences of the pattern `p` as a
contiguous run inside `s`: the number of suffixes of `s` that start with `p`. -/
def countOccs (p : List Char) : List Char → Nat
  | [] => 0
  | a :: rest => (if List.isPrefixOf p (a :: rest) then 1 else 0) + countOccs p rest

/-- The maximal `c`-free prefix of a character list: the first segment that
`splitOnChar c` produces. -/
def takeUntil (c : Char) : List Char → List Char
  | [] => []
  | a :: rest => if a = c then [] else a :: takeUntil c rest

/-- Python `"=" * 80` (line 6 and elsewhere): eighty equals signs. -/
def eqSep : String := String.mk (List.replicate 80 '=')

/-- Python `"-" * 80` (line 46): eighty dashes. -/
def dashSep : String := String.mk (List.replicate 80 '-')

/-- The title printed on line 7 of the source. -/
def titleLine : String := "SHORTFORM SUMMARY COMPARISON ANALYSIS"

/-- The header printed on line 63 of the source. -/
def requiredFixesTitle : String := "REQUIRED FIXES:"

/-- The dict `shortform_features` (source lines 12-43): category name paired
with the ordered list of feature-description strings, in insertion order. -/
def shortform_features : List (String × List String) :=
  [("STRUCTURE",
    ["✓ Cover page with book title, author, and 2-3 paragraph introduction",
     "✓ \x271-Page Summary\x27 section with condensed overview",
     "✓ 8-12 main content sections organized by themes",
     "✓ Each section has multiple subsections with bold headers",
     "✓ Conclusion or final thoughts section"]),
   ("SHORTFORM NOTES (CRITICAL!)",
    ["✓ Gray background boxes with \x27(Shortform note: ...)\x27 format",
     "✓ COMPARATIVE ANALYSIS citing 5-10 OTHER books by name",
     "✓ Author credentials and biographical context",
     "✓ Scientific/philosophical foundations explained",
     "✓ Critical analysis challenging the book\x27s claims",
     "✓ Practical implementation strategies from other sources",
     "✓ Appears every 2-4 paragraphs throughout the summary"]),
   ("CITATIONS & RESEARCH",
    ["✓ Specific book titles in italics (e.g., *Thinking, Fast and Slow*)",
     "✓ Author names with credentials (e.g., \x27Daniel Kahneman, Nobel laureate\x27)",
     "✓ Concrete examples from cited sources",
     "✓ Cross-references between different books",
     "✓ 8-12 total external sources minimum"]),
   ("VISUAL DESIGN",
    ["✓ Yellow/gold horizontal bars separating major sections",
     "✓ Light gray background boxes for Shortform notes",
     "✓ Professional typography with clear hierarchy",
     "✓ Blue hyperlinks for cross-references",
     "✓ Logo watermark on pages"])]

/-- The list `missing` (source lines 48-57). -/
def missing : List String :=
  ["1. NO GRAY BACKGROUND BOXES - Shortform notes must be in visible gray boxes",
   "2. NO COMPARATIVE ANALYSIS - Missing citations to other books",
   "3. NO AUTHOR CREDENTIALS - Not explaining who the experts are",
   "4. TOO GENERIC - Reads like a basic summary, not deep research",
   "5. NO SUBSECTIONS - Missing the detailed chapter breakdowns",
   "6. INSUFFICIENT RESEARCH DEPTH - Need 8-12 external book citations minimum",
   "7. NO CRITICAL ANALYSIS - Missing counterarguments and limitations",
   "8. NO PRACTICAL IMPLEMENTATION - Missing actionable steps from other sources"]

/-- The list `fixes` (source lines 66-75). -/
def fixes : List String :=
  ["1. UPDATE AI PROMPT: Force generation of 8-12 specific book citations",
   "2. UPDATE RENDERER: Add gray background boxes for all Shortform notes",
   "3. UPDATE PROMPT: Require author credentials for every citation",
   "4. UPDATE PROMPT: Mandate comparative analysis format",
   "5. UPDATE PROMPT: Require critical analysis and counterarguments",
   "6. UPDATE STRUCTURE: Generate 8-12 main sections with 2-4 subsections each",
   "7. UPDATE FREQUENCY: Insert Shortform note every 2-4 paragraphs",
   "8. UPDATE EXAMPLES: Provide actual Shortform note examples in the prompt"]

/-- Two-space indentation used by the f-strings on source lines 60 and 78. -/
def indent : String := "  "

/-- The arguments of the 26 `print` calls of the script, in program order
(source lines 6-80).  The feature table is passed in as a parameter because it
is in scope at every print site; as in the source, no print call reads it. -/
def printCalls (_features : List (String × List String)) : List String :=
  [eqSep,
   titleLine,
   eqSep,
   "\n📚 ANALYZING REAL SHORTFORM SUMMARIES...",
   "\n❌ WHAT\x27S MISSING FROM CURRENT IMPLEMENTATION:",
   dashSep]
  ++ missing.map (fun item => indent ++ item)
  ++ ["\n" ++ eqSep,
      requiredFixesTitle,
      eqSep]
  ++ fixes.map (fun fix => indent ++ fix)
  ++ ["\n" ++ eqSep]

/-- The newline that `print` appends after each of its arguments. -/
def newlineS : String := "\n"

/-- The captured standard output of one execution of the script: every `print`
argument followed by a newline, concatenated in program order. -/
def output : String :=
  String.join ((printCalls shortform_features).map (fun s => s ++ newlineS))

/-- The captured standard output, split into its newline-terminated lines. -/
def outputLines : List String := linesOf output

/-- The empty string (used as the out-of-range default in line lookups). -/
def emptyS : String := ""

/-- A line made of `=` characters only (and nonempty, so blank lines are not
counted as separators). -/
def isEqSepLine (l : String) : Bool :=
  !l.data.isEmpty && l.data.all (fun c => c == '=')

/-- A line made of `-` characters only (and nonempty). -/
def isDashSepLine (l : String) : Bool :=
  !l.data.isEmpty && l.data.all (fun c => c == '-')

/-- The category names of the feature table, in insertion order. -/
def categoryNames : List String := shortform_features.map Prod.fst

/-- Every feature-description string of the feature table, in order. -/
def featureStrings : List String := (shortform_features.map Prod.snd).flatten

/-- The number of output lines that equal a category name of the feature table
(the category headers the specification expects the script to print). -/
def categoryHeaderLineCount : Nat :=
  (outputLines.filter (fun l => categoryNames.contains l)).length

/-- The category name involved in the one collision between the feature table
and the printed report. -/
def structureName : String := "STRUCTURE"

/-- A dot, for building the expected ordinal prefixes of list entries. -/
def dot : String := "."

/-- An abstract execution environment for one invocation of the script: clock
reading, randomness seed, and environment variables.  The source contains no
expression that reads any of these. -/
structure Env where
  time : Nat
  randomSeed : Nat
  vars : List (String × String)

/-- The standard output produced by running the script in the environment `e`.
The source reads nothing from its environment, so the emitted bytes are the
fixed string `output` whatever `e` holds. -/
def runOutput (_e : Env) : String := output

/-- A sample environment-variable name for exercising `runOutput`. -/
def homeKey : String := "HOME"

/-- A sample environment-variable value for exercising `runOutput`. -/
def homeVal : String := "/root"

/-- Modelled from the spec: the single error kind of the report printer,
raised when the process cannot write to its standard output (spec section 7
calls it OutputWriteFailure, e.g. a broken pipe).  The source has no
error-handling code of its own; this models the runtime behaviour the spec
describes. -/
inductive OutputWriteFailure where
  | brokenPipe

/-- Modelled from the spec: one write to standard output on a stream that
accepts its first `k` writes and fails from the `k`-th on (`budget = some k`),
or is always writable (`budget = none`).  `i` is the index of the write. -/
def writeLine (budget : Option Nat) (i : Nat) : Except OutputWriteFailure Unit :=
  match budget with
  | none => Except.ok ()
  | some k => if i < k then Except.ok () else Except.error OutputWriteFailure.brokenPipe

/-- Runs the remaining print calls starting at write index `i`: each write
either succeeds or fails, and a failure propagates immediately — the source
installs no handler anywhere. -/
def runExcAux (budget : Option Nat) : List String → Nat → Except OutputWriteFailure Unit
  | [], _ => Except.ok ()
  | _ :: rest, i =>
    match writeLine budget i with
    | Except.error e => Except.error e
    | Except.ok _ => runExcAux budget rest (i + 1)

/-- One execution of the script on a stream of the given write budget: performs
the 26 print calls in order, returning no value on success and the uncaught
`OutputWriteFailure` otherwise. -/
def runExc (budget : Option Nat) : Except OutputWriteFailure Unit :=
  runExcAux budget (printCalls shortform_features) 0

/-- Modelled from the spec: the process exit status — 0 on a normal run, and
non-zero (1) when the uncaught `OutputWriteFailure` terminates the process
(spec sections 6-7). -/
def processExitCode (budget : Option Nat) : Nat :=
  match runExc budget with
  | Except.ok _ => 0
  | Except.error _ => 1

/-- Tests whether an execution result is the uncaught broken-pipe failure. -/
def isBrokenPipe : Except OutputWriteFailure Unit → Bool
  | Except.error OutputWriteFailure.brokenPipe => true
  | _ => false

/-- Helper: `splitOnChar c s` is never empty, and its first segment is the
maximal `c`-free prefix of `s`. -/
theorem splitOnChar_eq_cons (c : Char) :
    ∀ s : List Char, ∃ t, splitOnChar c s = takeUntil c s :: t
  | [] => ⟨[], rfl⟩
  | a :: rest => by
    obtain ⟨t, ht⟩ := splitOnChar_eq_cons c rest
    by_cases h : a = c
    · exact ⟨splitOnChar c rest, by simp [splitOnChar, takeUntil, h]⟩
    · exact ⟨t, by simp [splitOnChar, takeUntil, h, ht]⟩

/-- Helper: whether a pattern free of the character `c` is a prefix of `s` is
decided entirely inside the maximal `c`-free prefix of `s`. -/
theorem isPrefixOf_takeUntil (c : Char) :
    ∀ (p s : List Char), (∀ x ∈ p, x ≠ c) →
      List.isPrefixOf p (takeUntil c s) = List.isPrefixOf p s
  | [], s, _ => by cases s <;> simp [List.isPrefixOf, takeUntil]
  | p0 :: p', [], _ => by simp [takeUntil]
  | p0 :: p', a :: rest, hc => by
    have hp0 : p0 ≠ c := hc p0 (List.mem_cons_self _ _)
    have hc' : ∀ x ∈ p', x ≠ c := fun x hx => hc x (List.mem_cons_of_mem _ hx)
    by_cases h : a = c
    · simp [takeUntil, List.isPrefixOf, h, hp0]
    · simp [takeUntil, List.isPrefixOf, h, isPrefixOf_takeUntil c p' rest hc']

/-- Helper: for a nonempty pattern that contains no occurrence of the separator
character `c`, the occurrences of the pattern in `s` are exactly the occurrences
inside the individual `c`-separated segments of `s` — no occurrence can span a
separator. -/
theorem countOccs_splitOnChar (c : Char) (p : List Char) (hp : p ≠ [])
    (hc : ∀ x ∈ p, x ≠ c) (s : List Char) :
    countOccs p s = ((splitOnChar c s).map (countOccs p)).sum := by
  induction s with
  | nil => simp [countOccs, splitOnChar]
  | cons a rest ih =>
    cases p with
    | nil => exact absurd rfl hp
    | cons p0 p' =>
      have hp0 : p0 ≠ c := hc p0 (List.mem_cons_self _ _)
      have hc' : ∀ x ∈ p', x ≠ c := fun x hx => hc x (List.mem_cons_of_mem _ hx)
      by_cases h : a = c
      · have hpre : List.isPrefixOf (p0 :: p') (a :: rest) = false := by
          simp [List.isPrefixOf, h, hp0]
        simp [countOccs, splitOnChar, h, hpre, ih]
        exact fun hpc => absurd hpc hp0
      · obtain ⟨t, ht⟩ := splitOnChar_eq_cons c rest
        have hsplit : splitOnChar c (a :: rest) = (a :: takeUntil c rest) :: t := by
          simp [splitOnChar, h, ht]
        have hpre : List.isPrefixOf (p0 :: p') (a :: takeUntil c rest)
            = List.isPrefixOf (p0 :: p') (a :: rest) := by
          simp [List.isPrefixOf, isPrefixOf_takeUntil c p' rest hc']
        rw [ht, List.map_cons, List.sum_cons] at ih
        rw [hsplit, List.map_cons, List.sum_cons]
        simp only [countOccs, hpre, ih]
        omega

/-- C1 counterexample: the script prints no category-header line at all, so the
number of printed category headers (0) differs from the number of keys of
`shortform_features` (4); the claimed equality is false. -/
theorem c1_counterexample :
    categoryHeaderLineCount = 0 ∧ shortform_features.length = 4 ∧
      categoryHeaderLineCount ≠ shortform_features.length := by
  refine ⟨by decide, by decide, by decide⟩

/-- C1 (amended): `shortform_features` has 4 keys in insertion order, but
`run()` prints no category name and no feature string on any line: the number
of printed category-header lines is 0. -/
theorem c1_no_category_headers_printed :
    shortform_features.length = 4 ∧ categoryHeaderLineCount = 0 ∧
      outputLines.all (fun l => !(categoryNames.contains l)) = true ∧
      outputLines.all (fun l => !(featureStrings.contains l)) = true := by
  refine ⟨by decide, by decide, by decide, by decide⟩

/-- C2: the output has exactly 8 missing-item lines; lines 8-15 (0-based) are
precisely the entries of `missing`, each on its own line indented by two
spaces, and the `i`-th entry begins with its ordinal number `i+1` followed by a
dot, for `i+1` running from 1 through 8 in list order. -/
theorem c2_missing_item_lines :
    missing.length = 8 ∧
      (outputLines.filter (fun l => (missing.map (fun m => indent ++ m)).contains l)).length
        = 8 ∧
      (outputLines.drop 8).take 8 = missing.map (fun m => indent ++ m) ∧
      (List.range 8).all
        (fun i =>
          List.isPrefixOf ((Nat.repr (i + 1)).data ++ dot.data) ((missing.getD i emptyS).data))
        = true := by
  refine ⟨by decide, by decide, by decide, by decide⟩

/-- C3: the output has exactly 8 fix lines; lines 20-27 (0-based) are precisely
the entries of `fixes`, each on its own line indented by two spaces, and the
`i`-th entry begins with its ordinal number `i+1` followed by a dot, for `i+1`
running from 1 through 8 in list order. -/
theorem c3_fix_lines :
    fixes.length = 8 ∧
      (outputLines.filter (fun l => (fixes.map (fun f => indent ++ f)).contains l)).length
        = 8 ∧
      (outputLines.drop 20).take 8 = fixes.map (fun f => indent ++ f) ∧
      (List.range 8).all
        (fun i =>
          List.isPrefixOf ((Nat.repr (i + 1)).data ++ dot.data) ((fixes.getD i emptyS).data))
        = true := by
  refine ⟨by decide, by decide, by decide, by decide⟩

/-- C4: the output has 6 separator lines composed solely of `=` or solely of
`-` characters, and every one of them is exactly 80 characters long. -/
theorem c4_separator_lines_80 :
    (outputLines.filter (fun l => isEqSepLine l || isDashSepLine l)).length = 6 ∧
      (outputLines.filter (fun l => isEqSepLine l || isDashSepLine l)).all
          (fun l => l.data.length == 80)
        = true := by
  refine ⟨by decide, by decide⟩

/-- C5: the first three lines of the captured standard output are an
80-character line of `=` characters, the literal title
`SHORTFORM SUMMARY COMPARISON ANALYSIS`, and another such `=` line. -/
theorem c5_first_three_lines :
    outputLines.take 3 = [eqSep, titleLine, eqSep] ∧
      eqSep.data.length = 80 ∧ eqSep.data.all (fun c => c == '=') = true := by
  refine ⟨by decide, by decide, by decide⟩

/-- C6: the substring `REQUIRED FIXES:` occurs exactly once in the whole
output; it is line 18 (0-based), and lines 17 and 19 around it are both the
80-character `=` separator. -/
theorem c6_required_fixes_once :
    countOccs requiredFixesTitle.data output.data = 1 ∧
      outputLines.getD 18 emptyS = requiredFixesTitle ∧
      outputLines.getD 17 emptyS = eqSep ∧
      outputLines.getD 19 emptyS = eqSep ∧
      eqSep.data.length = 80 ∧ eqSep.data.all (fun c => c == '=') = true := by
  refine ⟨?_, by decide, by decide, by decide, by decide, by decide⟩
  rw [countOccs_splitOnChar '\n' requiredFixesTitle.data (by decide) (by decide) output.data]
  decide

/-- C7: the output of the script is the same fixed byte string in every
execution environment — it depends on no input, time, randomness, or
environment variables, being a function of the inline literal data only. -/
theorem c7_deterministic :
    ∀ e₁ e₂ : Env, runOutput e₁ = runOutput e₂ ∧ runOutput e₁ = output :=
  fun _ _ => ⟨rfl, rfl⟩

/-- C7 witness: two concrete executions, at different times, seeds and
environment variables, produce byte-identical output. -/
theorem c7_deterministic_witness :
    runOutput ⟨0, 0, []⟩ = runOutput ⟨1234, 99, [(homeKey, homeVal)]⟩ :=
  (c7_deterministic ⟨0, 0, []⟩ ⟨1234, 99, [(homeKey, homeVal)]⟩).1

/-- C8: on an always-writable stream the run succeeds, returns no value and
the process exits with status 0; the only error kind is `OutputWriteFailure`
(broken pipe); and whenever the stream becomes unwritable before the last of
the 26 writes, the uncaught failure propagates and the process exits with the
non-zero status 1. -/
theorem c8_error_model :
    (runExc none = Except.ok () ∧ processExitCode none = 0) ∧
      (∀ e : OutputWriteFailure, e = OutputWriteFailure.brokenPipe) ∧
      (printCalls shortform_features).length = 26 ∧
      (∀ k : Nat, k < (printCalls shortform_features).length →
        isBrokenPipe (runExc (some k)) = true ∧ processExitCode (some k) = 1) := by
  refine ⟨⟨rfl, rfl⟩, fun e => by cases e; rfl, by decide, by decide⟩

/-- C8 witness: a stream that fails at the fourth write makes the concrete run
fail with the uncaught broken-pipe error and exit status 1. -/
theorem c8_error_model_witness :
    3 < (printCalls shortform_features).length ∧
      isBrokenPipe (runExc (some 3)) = true ∧ processExitCode (some 3) = 1 :=
  ⟨by decide, c8_error_model.2.2.2 3 (by decide)⟩

/-- C9 counterexample: the category name `STRUCTURE` of `shortform_features`
does occur in the output — once, inside the fix line `6. UPDATE STRUCTURE: ...`
— so the claim that no category name occurs anywhere in the output is false. -/
theorem c9_counterexample :
    categoryNames.contains structureName = true ∧
      countOccs structureName.data output.data = 1 ∧
      countOccs structureName.data (outputLines.getD 25 emptyS).data = 1 := by
  refine ⟨by decide, ?_, by decide⟩
  rw [countOccs_splitOnChar '\n' structureName.data (by decide) (by decide) output.data]
  decide

/-- C9 (amended): the feature table is never read — the print calls produce the
same lines whatever the table holds; no feature-description string occurs
anywhere in the output and no line of the output is a category name; of the
category names only the word `STRUCTURE` occurs inside the output, once, as
part of the unrelated fix line `6. UPDATE STRUCTURE: ...`. -/
theorem c9_table_unread :
    (∀ t : List (String × List String), printCalls t = printCalls shortform_features) ∧
      featureStrings.all (fun f => countOccs f.data output.data == 0) = true ∧
      outputLines.all (fun l => !(categoryNames.contains l)) = true ∧
      countOccs structureName.data output.data = 1 := by
  refine ⟨fun _ => rfl, ?_, by decide, ?_⟩
  · have hall : featureStrings.all (fun f =>
        decide (f.data ≠ [])
          && decide (∀ x ∈ f.data, x ≠ '\n')
          && (splitOnChar '\n' output.data).all (fun l => countOccs f.data l == 0))
        = true := by
      decide
    rw [List.all_eq_true] at hall ⊢
    intro f hf
    have hf3 := hall f hf
    simp only [Bool.and_eq_true] at hf3
    obtain ⟨⟨h1, h2⟩, h3⟩ := hf3
    rw [countOccs_splitOnChar '\n' f.data (of_decide_eq_true h1) (of_decide_eq_true h2)
      output.data]
    have hz : ((splitOnChar '\n' output.data).map (countOccs f.data)).sum = 0 := by
      apply List.sum_eq_zero
      intro x hx
      simp only [List.mem_map] at hx
      obtain ⟨l, hl, rfl⟩ := hx
      rw [List.all_eq_true] at h3
      simpa using h3 l hl
    simp [hz]
  · rw [countOccs_splitOnChar '\n' structureName.data (by decide) (by decide) output.data]
    decide

/-- C9 witness: the print calls on the actual table and on the empty table are
identical. -/
theorem c9_table_unread_witness :
    printCalls [] = printCalls shortform_features :=
  c9_table_unread.1 []

/-- C10: the captured output is exactly 30 newline-terminated lines — splitting
its characters at every newline yields exactly the 30 lines followed by one
trailing empty segment, so every line ends in a newline — of which exactly 4
are empty, exactly 5 are 80-character `=` separator lines, and exactly 1 is an
80-character `-` separator line. -/
theorem c10_line_statistics :
    outputLines.length = 30 ∧
      splitOnChar '\n' output.data = outputLines.map String.data ++ [[]] ∧
      (outputLines.filter (fun l => l.data.isEmpty)).length = 4 ∧
      (outputLines.filter (fun l => isEqSepLine l)).length = 5 ∧
      (outputLines.filter (fun l => isEqSepLine l)).all (fun l => l.data.length == 80)
        = true ∧
      (outputLines.filter (fun l => isDashSepLine l)).length = 1 ∧
      (outputLines.filter (fun l => isDashSepLine l)).all (fun l => l.data.length == 80)
        = true := by
  refine ⟨by decide, by decide, by decide, by decide, by decide, by decide, by decide⟩

end CompareToShortform
